import Mathlib

/-!
Shallow embedding of the message-send pipeline of `src/src/hooks/useChat.tsx`
(the `useChat` React hook of sheepyrad/stresswise-assistant).

Modelling conventions:
* `Message` mirrors the `Message` interface (id, text, isUser, timestamp).
  `Date.now()` readings are modelled as natural numbers (milliseconds); the
  id `Date.now().toString()` and the ISO timestamp string are both rendered
  with `toString` of that reading, since the ISO rendering is an injective
  image of the millisecond clock and none of the properties below inspects
  its format.
* The responder slot (`apiFunction` state) is an `ApiSlot`: either an
  invokable function or a non-function value (JavaScript permits storing a
  non-function despite the TypeScript annotation; `callApiWithRetry` guards
  against exactly that with `typeof apiFunction !== function`).
* An invokable responder is a function `Nat → String → String → Except Unit String`:
  the `Nat` is the invocation index inside one retry loop (the oracle for the
  external world, since the same JavaScript function may reject on one call
  and resolve on the next); the two strings are `(message, systemPrompt)`;
  the result models the promise resolving (`Except.ok reply`) or
  rejecting/throwing (`Except.error`).  Error contents are never inspected by
  the source, so the error type is `Unit`.
* Asynchronous effects are made explicit: `callApiWithRetry` returns, next to
  the `Except` outcome, the number of responder invocations performed and the
  list of backoff delays awaited (in milliseconds, in order), so that the
  retry-count and backoff claims are statable.
* React `useState` cells become fields of `ChatState`; each setter call
  becomes a functional update.  The `useEffect` blocks at lines 47-60 of the
  source only re-install the construction-time options and are observationally
  absorbed into `useChatInit`.
-/

/-- `Message` interface (useChat.tsx lines 5-10). -/
structure Message where
  id : String
  text : String
  isUser : Bool
  timestamp : String
deriving Repr, DecidableEq

/-- An invokable responder: invocation index, message text, system prompt to
promise outcome. -/
def ApiFun : Type := Nat → String → String → Except Unit String

/-- The `apiFunction` state cell: either a genuine function or a non-function
value (what `typeof apiFunction !== 'function'` detects). -/
inductive ApiSlot where
  | invokable (f : ApiFun)
  | notAFunction

/-- Construction options (`ChatOptions`, useChat.tsx lines 12-16). -/
structure ChatOptions where
  initialMessages : Option (List Message) := none
  systemPrompt : Option String := none
  apiFunction : Option ApiSlot := none

/-- `defaultSystemPrompt` (useChat.tsx lines 18-24). -/
def defaultSystemPrompt : String :=
  "\nYou are MentalHealthChat, an AI assistant focused on supporting mental wellbeing. \nYour responses should be empathetic, supportive, and helpful. \nProvide guidance on stress management, emotional wellbeing, and mindfulness.\nSuggest practical exercises when appropriate.\nIf the user seems to be in crisis, gently suggest professional help.\n"

/-- The fixed greeting text seeded at construction (line 31) and by
`clearMessages` (line 122). -/
def greetingText : String :=
  "Hi there! I\x27m MentalHealthChat, your supportive companion. How are you feeling today?"

/-- The degraded-service reply returned when the responder slot is not
invokable (useChat.tsx line 83). -/
def connectTroubleReply : String :=
  "I\x27m having trouble connecting to my brain right now. Please try again in a moment."

/-- The apology text appended when the retry loop is exhausted
(useChat.tsx line 110). -/
def apologyReply : String :=
  "I\x27m having trouble responding right now. Please try again in a moment."

/-- The seeded greeting `Message` (useChat.tsx lines 29-34 and 120-125): fixed
id `"1"`, greeting text, assistant origin, timestamp from the clock reading
`now`. -/
def greetingMessage (now : Nat) : Message :=
  { id := "1", text := greetingText, isUser := false, timestamp := toString now }

/-- The mutable state owned by one `useChat` instance: the four `useState`
cells (lines 27, 38, 39, 42). -/
structure ChatState where
  messages : List Message
  isLoading : Bool
  systemPrompt : String
  slot : ApiSlot

/-- `useChat` construction (useChat.tsx lines 26-44).  JavaScript `||`
semantics: a supplied `initialMessages` array is always truthy (even when
empty), so it replaces the greeting seed verbatim; a supplied systemPrompt
string is falsy exactly when empty, in which case the default persona prompt
is used; a supplied apiFunction value is used as given, else the external
`callChatApi` transport (passed here as `defaultApi`, since `@/lib/apiClient`
is outside the embedded core). -/
def useChatInit (defaultApi : ApiFun) (options : ChatOptions) (now : Nat) : ChatState :=
  { messages :=
      match options.initialMessages with
      | some ms => ms
      | none => [greetingMessage now]
    , isLoading := false
    , systemPrompt :=
      match options.systemPrompt with
      | some p => if p = "" then defaultSystemPrompt else p
      | none => defaultSystemPrompt
    , slot :=
      match options.apiFunction with
      | some s => s
      | none => ApiSlot.invokable defaultApi }

/-- `addMessage` (useChat.tsx lines 62-72): builds a `Message` whose id is the
decimal string of the `Date.now()` reading `now`, appends it to the
transcript, and returns it. -/
def addMessage (s : ChatState) (now : Nat) (text : String) (isUser : Bool) :
    ChatState × Message :=
  let newMessage : Message :=
    { id := toString now, text := text, isUser := isUser, timestamp := toString now }
  ({ s with messages := s.messages ++ [newMessage] }, newMessage)

deriving instance DecidableEq for Except

/-- Observable outcome of one `callApiWithRetry` call: the settled promise,
the number of responder invocations performed, and the backoff delays awaited
(milliseconds, in order). -/
structure RetryResult where
  result : Except Unit String
  calls : Nat
  delays : List Nat
deriving Repr, DecidableEq

/-- `callApiWithRetry` (useChat.tsx lines 74-97).  The slot and prompt are the
values captured by the `useCallback` closure (deps `[apiFunction,
systemPrompt]`); the recursive call at line 93 re-enters the same closure, so
they stay fixed across attempts.  Attempt `retryCount` invokes the responder
at invocation index `retryCount` (indices run 0,1,... from the top-level call,
which the hook always makes with `retryCount = 0`).  On failure with
`retryCount < maxRetries` it waits `1000 * 2 ^ retryCount` ms and recurses;
otherwise it re-raises (`Except.error`). -/
def callApiWithRetry (slot : ApiSlot) (systemPrompt : String) (userMessage : String)
    (retryCount : Nat) (maxRetries : Nat) : RetryResult :=
  match slot with
  | ApiSlot.notAFunction =>
    -- line 81-84: the guard returns the degraded-service reply without
    -- invoking anything and without throwing
    { result := Except.ok connectTroubleReply, calls := 0, delays := [] }
  | ApiSlot.invokable f =>
    match f retryCount userMessage systemPrompt with
    | Except.ok reply => { result := Except.ok reply, calls := 1, delays := [] }
    | Except.error e =>
      if h : retryCount < maxRetries then
        let rest := callApiWithRetry slot systemPrompt userMessage (retryCount + 1) maxRetries
        { result := rest.result
          , calls := rest.calls + 1
          , delays := (1000 * 2 ^ retryCount) :: rest.delays }
      else { result := Except.error e, calls := 1, delays := [] }
termination_by maxRetries - retryCount
decreasing_by omega

/-- The ECMA-262 whitespace test used by JavaScript `String.prototype.trim`:
WhiteSpace (TAB, VT, FF, SP, NBSP, ZWNBSP and the Unicode Zs spaces) together
with LineTerminator (LF, CR, LS, PS). -/
def isJsWhitespace (c : Char) : Bool :=
  let n := c.toNat
  n = 0x09 || n = 0x0A || n = 0x0B || n = 0x0C || n = 0x0D || n = 0x20 ||
  n = 0xA0 || n = 0x1680 || (0x2000 ≤ n && n ≤ 0x200A) || n = 0x2028 ||
  n = 0x2029 || n = 0x202F || n = 0x205F || n = 0x3000 || n = 0xFEFF

/-- JavaScript `text.trim()`: strip whitespace from both ends. -/
def jsTrim (s : String) : String :=
  String.mk (((s.data.dropWhile isJsWhitespace).reverse.dropWhile isJsWhitespace).reverse)

/-- Outcome of one `sendMessage` call: the new state, the returned value
(`some` user entry, or `none` on the blank-input early return), and the
retry-loop observables. -/
structure SendOutcome where
  state : ChatState
  returned : Option Message
  calls : Nat
  delays : List Nat

/-- `sendMessage` (useChat.tsx lines 99-116).  `tUser` and `tAsst` are the
`Date.now()` readings observed by the two `addMessage` calls.  Blank input
(`!text.trim()`) returns immediately with nothing.  Otherwise: append the
user entry, set loading, run the retry-wrapped call with the raw text and the
current prompt, append the assistant entry (reply on success, fixed apology
on the caught exhaustion error), and finally clear loading unconditionally. -/
def sendMessage (s : ChatState) (tUser tAsst : Nat) (text : String) : SendOutcome :=
  if jsTrim text = "" then
    { state := s, returned := none, calls := 0, delays := [] }
  else
    let userPair := addMessage s tUser text true
    let s1 := { userPair.1 with isLoading := true }
    let r := callApiWithRetry s1.slot s1.systemPrompt text 0 3
    let s2 :=
      match r.result with
      | Except.ok response => (addMessage s1 tAsst response false).1
      | Except.error _ => (addMessage s1 tAsst apologyReply false).1
    { state := { s2 with isLoading := false }
      , returned := some userPair.2
      , calls := r.calls
      , delays := r.delays }

/-- `clearMessages` (useChat.tsx lines 118-127): replaces the transcript with
the single seeded greeting, touching nothing else. -/
def clearMessages (s : ChatState) (now : Nat) : ChatState :=
  { s with messages := [greetingMessage now] }

/-- `setSystemPrompt` (the `useState` setter exposed at line 144): replaces
the active prompt unconditionally. -/
def setSystemPrompt (s : ChatState) (p : String) : ChatState :=
  { s with systemPrompt := p }

/-- `updateApiFunction` (useChat.tsx lines 130-136): installs the candidate
only when it is invokable; a non-function candidate only logs and leaves the
previous responder in place. -/
def updateApiFunction (s : ChatState) (candidate : ApiSlot) : ChatState :=
  match candidate with
  | ApiSlot.invokable f => { s with slot := ApiSlot.invokable f }
  | ApiSlot.notAFunction => s

/-- One public operation of the hook, with the clock readings and candidate
values it consumes. -/
inductive Op where
  | send (text : String) (tUser tAsst : Nat)
  | clear (now : Nat)
  | setPrompt (p : String)
  | updateApi (candidate : ApiSlot)

/-- Apply one public operation to the state. -/
def applyOp (s : ChatState) : Op → ChatState
  | Op.send text tUser tAsst => (sendMessage s tUser tAsst text).state
  | Op.clear now => clearMessages s now
  | Op.setPrompt p => setSystemPrompt s p
  | Op.updateApi c => updateApiFunction s c

/-- Run a sequence of public operations. -/
def run (s : ChatState) (ops : List Op) : ChatState :=
  ops.foldl applyOp s

/-! ## Helper definitions and shape lemmas -/

/-- The `Message` built by `addMessage` for a clock reading `now`. -/
def stampedMessage (now : Nat) (text : String) (isUser : Bool) : Message :=
  { id := toString now, text := text, isUser := isUser, timestamp := toString now }

/-- The assistant text appended by `sendMessage`: the resolved reply on
success, the fixed apology when the retry loop re-raised. -/
def replyOrApology : Except Unit String → String
  | Except.ok v => v
  | Except.error _ => apologyReply

/-- The ids of the transcript, in order. -/
def transcriptIds (s : ChatState) : List String :=
  s.messages.map Message.id

/-- A responder that always resolves with the fixed reply `"ok"`. -/
def constOkApi : ApiFun := fun _ _ _ => Except.ok "ok"

/-- A responder that rejects on every invocation. -/
def alwaysFailApi : ApiFun := fun _ _ _ => Except.error ()

/-- Blank input: `sendMessage` is an early-returning no-op. -/
theorem sendMessage_blank (s : ChatState) (tU tA : Nat) (text : String)
    (h : jsTrim text = "") :
    sendMessage s tU tA text = { state := s, returned := none, calls := 0, delays := [] } := by
  unfold sendMessage
  rw [if_pos h]

/-- Non-blank input: the full observable shape of `sendMessage`. -/
theorem sendMessage_nonblank (s : ChatState) (tU tA : Nat) (text : String)
    (h : ¬ jsTrim text = "") :
    sendMessage s tU tA text =
      { state :=
          { messages := s.messages ++
              [stampedMessage tU text true,
               stampedMessage tA
                 (replyOrApology (callApiWithRetry s.slot s.systemPrompt text 0 3).result)
                 false]
            , isLoading := false
            , systemPrompt := s.systemPrompt
            , slot := s.slot }
        , returned := some (stampedMessage tU text true)
        , calls := (callApiWithRetry s.slot s.systemPrompt text 0 3).calls
        , delays := (callApiWithRetry s.slot s.systemPrompt text 0 3).delays } := by
  unfold sendMessage
  rw [if_neg h]
  cases hr : (callApiWithRetry s.slot s.systemPrompt text 0 3).result with
  | ok v => simp [addMessage, replyOrApology, hr, stampedMessage]
  | error e => simp [addMessage, replyOrApology, hr, stampedMessage]

/-- The default-constructed hook state (no options), clock reading 0. -/
def sampleState : ChatState := useChatInit constOkApi {} 0

/-- Default-constructed state whose responder rejects every invocation. -/
def failState : ChatState :=
  useChatInit constOkApi { apiFunction := some (ApiSlot.invokable alwaysFailApi) } 0

/-! ## Claims -/

/-- C1: for non-blank `text`, `sendMessage` appends exactly one user entry and
exactly one assistant entry (whatever the responder did) and returns with the
loading flag false; for blank `text` it appends nothing, leaves the whole
state (loading flag included) unchanged, and returns nothing. -/
theorem sendMessage_append_shape (s : ChatState) (tU tA : Nat) (text : String) :
    (¬ jsTrim text = "" →
      ∃ u a : Message, u.isUser = true ∧ a.isUser = false ∧
        (sendMessage s tU tA text).state.messages = s.messages ++ [u, a] ∧
        (sendMessage s tU tA text).state.isLoading = false) ∧
    (jsTrim text = "" →
      (sendMessage s tU tA text).state = s ∧
      (sendMessage s tU tA text).returned = none) := by
  constructor
  · intro h
    rw [sendMessage_nonblank s tU tA text h]
    exact ⟨stampedMessage tU text true,
      stampedMessage tA
        (replyOrApology (callApiWithRetry s.slot s.systemPrompt text 0 3).result) false,
      rfl, rfl, rfl, rfl⟩
  · intro h
    rw [sendMessage_blank s tU tA text h]
    exact ⟨rfl, rfl⟩

/-- Witness for C1 at concrete inputs: a non-blank send from the default
state, and a whitespace-only send. -/
theorem sendMessage_append_shape_witness :
    (∃ u a : Message, u.isUser = true ∧ a.isUser = false ∧
      (sendMessage sampleState 5 6 "hi").state.messages = sampleState.messages ++ [u, a] ∧
      (sendMessage sampleState 5 6 "hi").state.isLoading = false) ∧
    ((sendMessage sampleState 5 6 "   ").state = sampleState ∧
      (sendMessage sampleState 5 6 "   ").returned = none) :=
  ⟨(sendMessage_append_shape sampleState 5 6 "hi").1 (by decide),
   (sendMessage_append_shape sampleState 5 6 "   ").2 (by decide)⟩

/-- C2: no responder-side failure escapes `sendMessage`: it is a total
function on every responder behaviour, ends with the loading flag false
(the `finally` clause) whatever the retry outcome was, and when the retry
loop re-raised (retries exhausted) the appended assistant entry carries the
fixed apology text. -/
theorem sendMessage_absorbs_failures (s : ChatState) (tU tA : Nat) (text : String)
    (h : ¬ jsTrim text = "") :
    (sendMessage s tU tA text).state.isLoading = false ∧
    ((callApiWithRetry s.slot s.systemPrompt text 0 3).result = Except.error () →
      (sendMessage s tU tA text).state.messages =
        s.messages ++ [stampedMessage tU text true, stampedMessage tA apologyReply false]) := by
  rw [sendMessage_nonblank s tU tA text h]
  refine ⟨rfl, fun hr => ?_⟩
  rw [hr]
  rfl

/-- Witness for C2: an always-failing responder; the apology entry is
appended and loading ends false. -/
theorem sendMessage_absorbs_failures_witness :
    (sendMessage failState 5 6 "hello").state.isLoading = false ∧
    (sendMessage failState 5 6 "hello").state.messages =
      failState.messages ++ [stampedMessage 5 "hello" true, stampedMessage 6 apologyReply false] :=
  ⟨(sendMessage_absorbs_failures failState 5 6 "hello" (by decide)).1,
   (sendMessage_absorbs_failures failState 5 6 "hello" (by decide)).2
     (by simp [failState, useChatInit, callApiWithRetry, alwaysFailApi])⟩

/-- C3: with a responder that fails on every invocation, one non-blank
`sendMessage` performs exactly 4 responder invocations (initial call plus
`maxRetries = 3` retries), awaits backoff delays of 1000, 2000 and 4000
milliseconds before the successive retries, and only then appends the
fallback apology entry. -/
theorem sendMessage_exhausts_four_attempts (s : ChatState) (f : ApiFun) (tU tA : Nat)
    (text : String)
    (hslot : s.slot = ApiSlot.invokable f)
    (hf : ∀ i, f i text s.systemPrompt = Except.error ())
    (h : ¬ jsTrim text = "") :
    (sendMessage s tU tA text).calls = 4 ∧
    (sendMessage s tU tA text).delays = [1000, 2000, 4000] ∧
    (sendMessage s tU tA text).state.messages =
      s.messages ++ [stampedMessage tU text true, stampedMessage tA apologyReply false] := by
  have hr : callApiWithRetry s.slot s.systemPrompt text 0 3 =
      { result := Except.error (), calls := 4, delays := [1000, 2000, 4000] } := by
    rw [hslot]
    simp [callApiWithRetry, hf]
  rw [sendMessage_nonblank s tU tA text h, hr]
  exact ⟨rfl, rfl, rfl⟩

/-- Witness for C3: the default-constructed state with an always-failing
responder, sending "hello". -/
theorem sendMessage_exhausts_four_attempts_witness :
    (sendMessage failState 5 6 "hello").calls = 4 ∧
    (sendMessage failState 5 6 "hello").delays = [1000, 2000, 4000] ∧
    (sendMessage failState 5 6 "hello").state.messages =
      failState.messages ++ [stampedMessage 5 "hello" true, stampedMessage 6 apologyReply false] :=
  sendMessage_exhausts_four_attempts failState alwaysFailApi 5 6 "hello" rfl
    (fun _ => rfl) (by decide)

/-- C4: if the responder first resolves on its Nth invocation (1 ≤ N ≤ 4),
`sendMessage` invokes it exactly N times and the appended assistant entry
carries that invocation's reply. -/
theorem sendMessage_succeeds_on_nth (s : ChatState) (f : ApiFun) (tU tA : Nat)
    (text reply : String) (N : Nat)
    (hslot : s.slot = ApiSlot.invokable f)
    (hN1 : 1 ≤ N) (hN2 : N ≤ 4)
    (hfail : ∀ i, i < N - 1 → f i text s.systemPrompt = Except.error ())
    (hsucc : f (N - 1) text s.systemPrompt = Except.ok reply)
    (h : ¬ jsTrim text = "") :
    (sendMessage s tU tA text).calls = N ∧
    (sendMessage s tU tA text).state.messages =
      s.messages ++ [stampedMessage tU text true, stampedMessage tA reply false] := by
  have hr : (callApiWithRetry s.slot s.systemPrompt text 0 3).calls = N ∧
      (callApiWithRetry s.slot s.systemPrompt text 0 3).result = Except.ok reply := by
    rw [hslot]
    interval_cases N
    · have h0 : f 0 text s.systemPrompt = Except.ok reply := by simpa using hsucc
      constructor <;> simp [callApiWithRetry, h0]
    · have h0 : f 0 text s.systemPrompt = Except.error () := hfail 0 (by omega)
      have h1 : f 1 text s.systemPrompt = Except.ok reply := by simpa using hsucc
      constructor <;> simp [callApiWithRetry, h0, h1]
    · have h0 : f 0 text s.systemPrompt = Except.error () := hfail 0 (by omega)
      have h1 : f 1 text s.systemPrompt = Except.error () := hfail 1 (by omega)
      have h2 : f 2 text s.systemPrompt = Except.ok reply := by simpa using hsucc
      constructor <;> simp [callApiWithRetry, h0, h1, h2]
    · have h0 : f 0 text s.systemPrompt = Except.error () := hfail 0 (by omega)
      have h1 : f 1 text s.systemPrompt = Except.error () := hfail 1 (by omega)
      have h2 : f 2 text s.systemPrompt = Except.error () := hfail 2 (by omega)
      have h3 : f 3 text s.systemPrompt = Except.ok reply := by simpa using hsucc
      constructor <;> simp [callApiWithRetry, h0, h1, h2, h3]
  rw [sendMessage_nonblank s tU tA text h]
  refine ⟨by simpa using hr.1, ?_⟩
  simp only [hr.2]
  rfl

/-- A responder that rejects its first invocation and resolves from the
second one on. -/
def secondTryApi : ApiFun := fun i _ _ =>
  if i = 0 then Except.error () else Except.ok "recovered"

/-- Default-constructed state whose responder succeeds on the second try. -/
def secondTryState : ChatState :=
  useChatInit constOkApi { apiFunction := some (ApiSlot.invokable secondTryApi) } 0

/-- Witness for C4 with N = 2: the second invocation resolves and its reply
is the appended assistant text. -/
theorem sendMessage_succeeds_on_nth_witness :
    (sendMessage secondTryState 5 6 "hey").calls = 2 ∧
    (sendMessage secondTryState 5 6 "hey").state.messages =
      secondTryState.messages ++
        [stampedMessage 5 "hey" true, stampedMessage 6 "recovered" false] :=
  sendMessage_succeeds_on_nth secondTryState secondTryApi 5 6 "hey" "recovered" 2 rfl
    (by omega) (by omega)
    (by
      intro i hi
      interval_cases i
      rfl)
    (by decide) (by decide)

/-- C8: `clearMessages` resets the transcript to exactly one assistant entry
carrying the fixed greeting text and the fresh clock reading as timestamp,
and leaves the loading flag, system prompt and responder slot untouched. -/
theorem clearMessages_resets_to_greeting (s : ChatState) (now : Nat) :
    (clearMessages s now).messages =
      [{ id := "1", text := greetingText, isUser := false, timestamp := toString now }] ∧
    (clearMessages s now).isLoading = s.isLoading ∧
    (clearMessages s now).systemPrompt = s.systemPrompt ∧
    (clearMessages s now).slot = s.slot :=
  ⟨rfl, rfl, rfl, rfl⟩

/-- C9: with a non-invokable responder slot the retry wrapper short-circuits:
it performs zero responder invocations, awaits no backoff, resolves (rather
than raising) with the fixed degraded-service reply, and `sendMessage`
therefore appends that reply through its success path. -/
theorem notAFunction_short_circuits (p m : String) (r maxR : Nat) (s : ChatState)
    (tU tA : Nat) (text : String)
    (hslot : s.slot = ApiSlot.notAFunction) (h : ¬ jsTrim text = "") :
    callApiWithRetry ApiSlot.notAFunction p m r maxR =
      { result := Except.ok connectTroubleReply, calls := 0, delays := [] } ∧
    (sendMessage s tU tA text).calls = 0 ∧
    (sendMessage s tU tA text).delays = [] ∧
    (sendMessage s tU tA text).state.messages =
      s.messages ++
        [stampedMessage tU text true, stampedMessage tA connectTroubleReply false] := by
  have hcall : ∀ p' m' : String, ∀ r' maxR' : Nat,
      callApiWithRetry ApiSlot.notAFunction p' m' r' maxR' =
        { result := Except.ok connectTroubleReply, calls := 0, delays := [] } := by
    intro p' m' r' maxR'
    simp [callApiWithRetry]
  refine ⟨hcall p m r maxR, ?_, ?_, ?_⟩ <;>
    rw [sendMessage_nonblank s tU tA text h, hslot] <;>
      simp [hcall, replyOrApology]

/-- State constructed with a non-function responder value in the options. -/
def brokenState : ChatState :=
  useChatInit constOkApi { apiFunction := some ApiSlot.notAFunction } 0

/-- Witness for C9: the broken state appends the degraded-service reply with
zero responder invocations. -/
theorem notAFunction_short_circuits_witness :
    callApiWithRetry ApiSlot.notAFunction "p" "m" 0 3 =
      { result := Except.ok connectTroubleReply, calls := 0, delays := [] } ∧
    (sendMessage brokenState 5 6 "hi").calls = 0 ∧
    (sendMessage brokenState 5 6 "hi").delays = [] ∧
    (sendMessage brokenState 5 6 "hi").state.messages =
      brokenState.messages ++
        [stampedMessage 5 "hi" true, stampedMessage 6 connectTroubleReply false] :=
  notAFunction_short_circuits "p" "m" 0 3 brokenState 5 6 "hi" rfl (by decide)

/-- C10: the greeting is seeded only when the `initialMessages` option is
absent; a supplied list (truthy in JavaScript even when empty) becomes the
initial transcript verbatim. -/
theorem initialMessages_taken_verbatim (api : ApiFun) (opts : ChatOptions) (now : Nat)
    (ms : List Message) :
    (opts.initialMessages = some ms → (useChatInit api opts now).messages = ms) ∧
    (opts.initialMessages = none →
      (useChatInit api opts now).messages = [greetingMessage now]) := by
  constructor
  · intro h
    simp [useChatInit, h]
  · intro h
    simp [useChatInit, h]

/-- Witness for C10: supplying the empty list yields an empty initial
transcript with no greeting entry; omitting the option seeds the greeting. -/
theorem initialMessages_taken_verbatim_witness :
    (useChatInit constOkApi { initialMessages := some [] } 0).messages = [] ∧
    (useChatInit constOkApi {} 0).messages = [greetingMessage 0] :=
  ⟨(initialMessages_taken_verbatim constOkApi { initialMessages := some [] } 0 []).1 rfl,
   (initialMessages_taken_verbatim constOkApi {} 0 []).2 rfl⟩

/-- Every public operation preserves non-emptiness of the transcript:
`sendMessage` only appends (or no-ops), `clearMessages` reseeds one entry,
the two setters leave the transcript alone. -/
theorem applyOp_messages_ne_nil (s : ChatState) (op : Op) (h : s.messages ≠ []) :
    (applyOp s op).messages ≠ [] := by
  cases op with
  | send text tU tA =>
    show (sendMessage s tU tA text).state.messages ≠ []
    by_cases hb : jsTrim text = ""
    · rw [sendMessage_blank s tU tA text hb]
      exact h
    · rw [sendMessage_nonblank s tU tA text hb]
      simp
  | clear now => simp [applyOp, clearMessages]
  | setPrompt p => exact h
  | updateApi c => cases c <;> exact h

/-- Running any operation sequence preserves non-emptiness. -/
theorem run_messages_ne_nil (ops : List Op) :
    ∀ s : ChatState, s.messages ≠ [] → (run s ops).messages ≠ [] := by
  induction ops with
  | nil => exact fun s h => h
  | cons op rest ih => exact fun s h => ih (applyOp s op) (applyOp_messages_ne_nil s op h)

/-- C6 counterexample: the claim quantifies over every construction, but
`options.initialMessages || [greeting]` takes a supplied empty array (truthy
in JavaScript), so constructing with `initialMessages = []` yields an empty
transcript — no greeting is seeded and the transcript is empty after
initialization. -/
theorem transcript_nonempty_counterexample :
    (run (useChatInit constOkApi { initialMessages := some [] } 0) []).messages = [] :=
  rfl

/-- C6 (amended): provided a caller-supplied `initialMessages` list is
non-empty (in particular whenever the option is absent and the greeting is
seeded), the transcript is non-empty after every sequence of the public
operations. -/
theorem transcript_nonempty_after_ops (api : ApiFun) (opts : ChatOptions) (now : Nat)
    (ops : List Op)
    (h : ∀ ms, opts.initialMessages = some ms → ms ≠ []) :
    (run (useChatInit api opts now) ops).messages ≠ [] := by
  apply run_messages_ne_nil
  cases hin : opts.initialMessages with
  | some ms => simpa [useChatInit, hin] using h ms hin
  | none => simp [useChatInit, hin]

/-- Witness for amended C6: default construction followed by a clear and a
send leaves a non-empty transcript. -/
theorem transcript_nonempty_after_ops_witness :
    (run (useChatInit constOkApi {} 0) [Op.clear 3, Op.send "hi" 4 5]).messages ≠ [] :=
  transcript_nonempty_after_ops constOkApi {} 0 [Op.clear 3, Op.send "hi" 4 5]
    (fun _ h => Option.noConfusion h)

/-- Specification variant of the retry protocol (spec sections 4.1 and 5):
identical to `callApiWithRetry` except that the system prompt is re-read
fresh at the start of every attempt — `promptAt k` is the value the
`systemPrompt` cell holds when attempt `k` starts, so a `setSystemPrompt`
applied during a backoff wait is seen by the next attempt.  This definition
follows the spec text and exists to be compared against the source-derived
`callApiWithRetry`. -/
def specFreshPromptRetry (slot : ApiSlot) (promptAt : Nat → String) (userMessage : String)
    (retryCount : Nat) (maxRetries : Nat) : RetryResult :=
  match slot with
  | ApiSlot.notAFunction =>
    { result := Except.ok connectTroubleReply, calls := 0, delays := [] }
  | ApiSlot.invokable f =>
    match f retryCount userMessage (promptAt retryCount) with
    | Except.ok reply => { result := Except.ok reply, calls := 1, delays := [] }
    | Except.error e =>
      if h : retryCount < maxRetries then
        let rest := specFreshPromptRetry slot promptAt userMessage (retryCount + 1) maxRetries
        { result := rest.result
          , calls := rest.calls + 1
          , delays := (1000 * 2 ^ retryCount) :: rest.delays }
      else { result := Except.error e, calls := 1, delays := [] }
termination_by maxRetries - retryCount
decreasing_by omega

/-- A responder that rejects its first invocation and then echoes the system
prompt it was handed, making the received prompt observable. -/
def promptEchoApi : ApiFun := fun i _ p =>
  if i = 0 then Except.error () else Except.ok p

/-- A prompt schedule in which `setSystemPrompt "B"` lands during the first
backoff wait: attempt 0 sees "A", every later attempt would see "B" were the
prompt re-read fresh. -/
def promptSwitch : Nat → String := fun i => if i = 0 then "A" else "B"

/-- The retry loop with a fixed captured prompt agrees with the fresh-read
semantics of the schedule frozen at its value for the starting attempt. -/
theorem retry_const_prompt (slot : ApiSlot) (p msg : String) :
    ∀ (n r maxR : Nat), maxR - r = n →
      callApiWithRetry slot p msg r maxR =
        specFreshPromptRetry slot (fun _ => p) msg r maxR := by
  intro n
  induction n with
  | zero =>
    intro r maxR hn
    unfold callApiWithRetry specFreshPromptRetry
    cases slot with
    | notAFunction => rfl
    | invokable f =>
      cases hfr : f r msg p with
      | ok v => simp [hfr]
      | error e =>
        have hlt : ¬ r < maxR := by omega
        simp [hfr, hlt]
  | succ k ih =>
    intro r maxR hn
    unfold callApiWithRetry specFreshPromptRetry
    cases slot with
    | notAFunction => rfl
    | invokable f =>
      cases hfr : f r msg p with
      | ok v => simp [hfr]
      | error e =>
        by_cases hlt : r < maxR
        · have hrec := ih (r + 1) maxR (by omega)
          simp [hfr, hlt, hrec]
        · simp [hfr, hlt]

/-- C5 counterexample: with the responder failing once and then echoing the
prompt it receives, and `setSystemPrompt "B"` landing during the first
backoff wait, the source loop still hands the retry the captured prompt "A",
while the spec's fresh-read semantics would hand it the newly set "B" — the
two disagree at this concrete input. -/
theorem prompt_fresh_reread_counterexample :
    callApiWithRetry (ApiSlot.invokable promptEchoApi) (promptSwitch 0) "m" 0 3 =
      { result := Except.ok "A", calls := 2, delays := [1000] } ∧
    specFreshPromptRetry (ApiSlot.invokable promptEchoApi) promptSwitch "m" 0 3 =
      { result := Except.ok "B", calls := 2, delays := [1000] } ∧
    callApiWithRetry (ApiSlot.invokable promptEchoApi) (promptSwitch 0) "m" 0 3 ≠
      specFreshPromptRetry (ApiSlot.invokable promptEchoApi) promptSwitch "m" 0 3 := by
  refine ⟨?_, ?_, ?_⟩
  · simp [callApiWithRetry, promptEchoApi, promptSwitch]
  · simp [specFreshPromptRetry, promptEchoApi, promptSwitch]
  · intro hcontra
    have h1 : callApiWithRetry (ApiSlot.invokable promptEchoApi) (promptSwitch 0) "m" 0 3 =
        { result := Except.ok "A", calls := 2, delays := [1000] } := by
      simp [callApiWithRetry, promptEchoApi, promptSwitch]
    have h2 : specFreshPromptRetry (ApiSlot.invokable promptEchoApi) promptSwitch "m" 0 3 =
        { result := Except.ok "B", calls := 2, delays := [1000] } := by
      simp [specFreshPromptRetry, promptEchoApi, promptSwitch]
    rw [h1, h2] at hcontra
    simp at hcontra

/-- C5 (amended): within a single in-flight retry loop the system prompt is
frozen at the value captured when the loop began (the `useCallback` closure
captures `systemPrompt`; the recursive call re-enters the same closure), so
the loop coincides with the spec's fresh-read semantics only for the schedule
held constant at its initial value; a `setSystemPrompt` applied while the
loop is waiting takes effect for later `sendMessage` calls, not for the
in-flight loop. -/
theorem prompt_frozen_during_retry (slot : ApiSlot) (promptAt : Nat → String)
    (msg : String) (maxR : Nat) :
    callApiWithRetry slot (promptAt 0) msg 0 maxR =
      specFreshPromptRetry slot (fun _ => promptAt 0) msg 0 maxR :=
  retry_const_prompt slot (promptAt 0) msg (maxR - 0) 0 maxR rfl

/-- The `Date.now()` readings an operation hands to `addMessage` (the id
source); `clearMessages` uses the fixed id `"1"`, the setters create no
entry. -/
def opTimes : Op → List Nat
  | Op.send _ tU tA => [tU, tA]
  | Op.clear _ => []
  | Op.setPrompt _ => []
  | Op.updateApi _ => []

/-- All `Date.now()` readings a run hands to `addMessage`, in order. -/
def runTimes : List Op → List Nat
  | [] => []
  | op :: rest => opTimes op ++ runTimes rest

/-- Distinctness of transcript ids is preserved along a run provided the
clock readings it consumes render to pairwise distinct decimal strings, none
of them colliding with an id already present or with the seeded id `"1"`. -/
theorem transcriptIds_nodup_run (ops : List Op) :
    ∀ s : ChatState,
      (transcriptIds s).Nodup →
      (∀ t ∈ runTimes ops, toString t ∉ transcriptIds s) →
      (∀ t ∈ runTimes ops, toString t ≠ "1") →
      ((runTimes ops).map (fun t : Nat => toString t)).Nodup →
      (transcriptIds (run s ops)).Nodup := by
  induction ops with
  | nil => intro s h1 _ _ _; exact h1
  | cons op rest ih =>
    intro s h1 h2 h3 h4
    show (transcriptIds (run (applyOp s op) rest)).Nodup
    cases op with
    | setPrompt p => exact ih _ h1 h2 h3 h4
    | updateApi c =>
      cases c with
      | invokable f => exact ih _ h1 h2 h3 h4
      | notAFunction => exact ih _ h1 h2 h3 h4
    | clear now =>
      apply ih
      · show (transcriptIds (clearMessages s now)).Nodup
        simp [transcriptIds, clearMessages]
      · intro t ht
        show toString t ∉ transcriptIds (clearMessages s now)
        simp [transcriptIds, clearMessages, greetingMessage]
        exact h3 t ht
      · exact h3
      · exact h4
    | send text tU tA =>
      have htU : tU ∈ runTimes (Op.send text tU tA :: rest) := by
        simp [runTimes, opTimes]
      have htA : tA ∈ runTimes (Op.send text tU tA :: rest) := by
        simp [runTimes, opTimes]
      have hmem : ∀ t ∈ runTimes rest, t ∈ runTimes (Op.send text tU tA :: rest) := by
        intro t ht
        simp [runTimes, opTimes, ht]
      have h4' : (toString tU :: toString tA ::
          (runTimes rest).map (fun t : Nat => toString t)).Nodup := by
        simpa [runTimes, opTimes] using h4
      rw [List.nodup_cons] at h4'
      obtain ⟨hU, h4''⟩ := h4'
      rw [List.nodup_cons] at h4''
      obtain ⟨hA, h4rest⟩ := h4''
      rw [List.mem_cons] at hU
      push_neg at hU
      obtain ⟨hUA, hUrest⟩ := hU
      by_cases hb : jsTrim text = ""
      · have hstate : applyOp s (Op.send text tU tA) = s := by
          show (sendMessage s tU tA text).state = s
          rw [sendMessage_blank s tU tA text hb]
        rw [hstate]
        exact ih _ h1 (fun t ht => h2 t (hmem t ht)) (fun t ht => h3 t (hmem t ht)) h4rest
      · have hids : transcriptIds (applyOp s (Op.send text tU tA)) =
            transcriptIds s ++ [toString tU, toString tA] := by
          show transcriptIds (sendMessage s tU tA text).state = _
          rw [sendMessage_nonblank s tU tA text hb]
          simp [transcriptIds, stampedMessage]
        apply ih
        · rw [hids, List.nodup_append]
          refine ⟨h1, by simp [hUA], ?_⟩
          intro a ha hin
          simp only [List.mem_cons, List.mem_singleton, List.not_mem_nil] at hin
          rcases hin with rfl | rfl | hfalse
          · exact h2 tU htU ha
          · exact h2 tA htA ha
          · exact hfalse
        · intro t ht
          rw [hids]
          rw [List.mem_append]
          push_neg
          refine ⟨h2 t (hmem t ht), ?_⟩
          intro hin
          simp only [List.mem_cons, List.mem_singleton, List.not_mem_nil] at hin
          rcases hin with heq | heq | hfalse
          · exact hUrest (heq ▸ List.mem_map_of_mem _ ht)
          · exact hA (heq ▸ List.mem_map_of_mem _ ht)
          · exact hfalse
        · intro t ht
          exact h3 t (hmem t ht)
        · exact h4rest

/-- C7 counterexample: ids come from `Date.now().toString()`, so the user and
assistant entries of one `sendMessage` whose two `addMessage` calls observe
the same millisecond share the id `"5"` — the transcript ids are not
pairwise distinct. -/
theorem entry_ids_unique_counterexample :
    ¬ (transcriptIds (sendMessage sampleState 5 5 "hi").state).Nodup := by
  have h : transcriptIds (sendMessage sampleState 5 5 "hi").state =
      ["1", toString (5 : Nat), toString (5 : Nat)] := by
    rw [sendMessage_nonblank sampleState 5 5 "hi" (by decide)]
    simp [transcriptIds, sampleState, useChatInit, greetingMessage, stampedMessage]
  rw [h]
  simp

/-- C7 (amended): every entry id is the decimal string of the `Date.now()`
reading of its `addMessage` call (`"1"` for seeded greetings), so starting
from the default construction the ids are pairwise distinct in every
reachable transcript provided the clock readings the run consumes render to
pairwise distinct strings none of which is `"1"`; two appends observing the
same millisecond violate uniqueness. -/
theorem entry_ids_unique_under_distinct_clock (api : ApiFun) (now : Nat) (ops : List Op)
    (hnodup : ((runTimes ops).map (fun t : Nat => toString t)).Nodup)
    (hone : ∀ t ∈ runTimes ops, toString t ≠ "1") :
    (transcriptIds (run (useChatInit api {} now) ops)).Nodup := by
  apply transcriptIds_nodup_run ops _ ?_ ?_ hone hnodup
  · simp [transcriptIds, useChatInit, greetingMessage]
  · intro t ht
    simp [transcriptIds, useChatInit, greetingMessage]
    exact hone t ht

/-- Witness for amended C7: two sends and a clear with strictly distinct
clock readings produce pairwise distinct ids. -/
theorem entry_ids_unique_under_distinct_clock_witness :
    (transcriptIds (run (useChatInit constOkApi {} 0)
        [Op.send "hi" 5 6, Op.clear 7, Op.send "yo" 8 9])).Nodup :=
  entry_ids_unique_under_distinct_clock constOkApi 0
    [Op.send "hi" 5 6, Op.clear 7, Op.send "yo" 8 9] (by decide) (by decide)
